import Mathlib

/-
  Shallow embedding of the jsonbender library (jsonbender/core.py,
  jsonbender/control_flow.py, jsonbender/list_ops.py).

  Python values are modelled by the inductive `Value` (floats as rationals),
  Python exceptions by `PyErr`, and the bender expression tree by the mutual
  inductives `Bender` / `Mapping`.  The two evaluation protocols of the code
  are modelled separately:
    * `rawExecute` / `callForm`: the primary protocol
      (`Bender.__call__` / `Bender.raw_execute` / `Bender.execute`);
    * `bendM`: the legacy `bend(source)` method, overridden by the
      control-flow and list-op combinators.
-/

namespace JsonBender

/-- Python values as used by the library: JSON-ish data.  Floats are modelled
as rationals (exact for the literals appearing in the spec and tests). -/
inductive Value where
  | null : Value
  | bool (b : Bool) : Value
  | int (n : ℤ) : Value
  | float (q : ℚ) : Value
  | str (s : String) : Value
  | list (l : List Value) : Value
  | dict (d : List (String × Value)) : Value

/-- Python exceptions raised by the modelled code.  `keyError`/`indexError`
are the `LookupError` subclasses; `bendingException` is the library's
`BendingException`. -/
inductive PyErr where
  | keyError (k : Value) : PyErr
  | indexError (msg : String) : PyErr
  | typeError (msg : String) : PyErr
  | valueError (msg : String) : PyErr
  | zeroDivisionError (msg : String) : PyErr
  | notImplementedError : PyErr
  | bendingException (msg : String) : PyErr

/-- LookupError class test: `KeyError` and `IndexError` are the Python
`LookupError` subclasses (the class caught by `Alternation` and `Switch`). -/
def PyErr.isLookup : PyErr → Bool
  | .keyError _ => true
  | .indexError _ => true
  | _ => false

/-- The Python class name of an exception (used to compare error classes). -/
def PyErr.className : PyErr → String
  | .keyError _ => "KeyError"
  | .indexError _ => "IndexError"
  | .typeError _ => "TypeError"
  | .valueError _ => "ValueError"
  | .zeroDivisionError _ => "ZeroDivisionError"
  | .notImplementedError => "NotImplementedError"
  | .bendingException _ => "BendingException"

/-- repr() of a hashable scalar, as it appears in str(KeyError(k)).
Rendering of float keys is approximate (rationals print differently than
Python floats); only scalar keys can occur as KeyError payloads here. -/
def pyRepr : Value → String
  | .str s => "\x27" ++ s ++ "\x27"
  | .int n => toString n
  | .bool b => cond b "True" "False"
  | .null => "None"
  | .float q => toString q
  | .list _ => "<list>"
  | .dict _ => "<dict>"

/-- str(e) for an exception, as interpolated by Dict.raw_execute.
Python renders str(KeyError(k)) as repr(k), and str of a no-argument
exception as the empty string. -/
def pyStr : PyErr → String
  | .keyError k => pyRepr k
  | .indexError m => m
  | .typeError m => m
  | .valueError m => m
  | .zeroDivisionError m => m
  | .notImplementedError => ""
  | .bendingException m => m

/-- Python truthiness of a value. -/
def truthy : Value → Bool
  | .null => false
  | .bool b => b
  | .int n => n != 0
  | .float q => q != 0
  | .str s => s != ""
  | .list l => !l.isEmpty
  | .dict d => !d.isEmpty

/-- Numbers that Python treats as integers (bool is an int subclass). -/
def toIntN : Value → Option ℤ
  | .int n => some n
  | .bool b => some (cond b 1 0)
  | _ => none

/-- Numbers in the real tower (int, bool, float). -/
def toRatN : Value → Option ℚ
  | .int n => some (n : ℚ)
  | .bool b => some (cond b 1 0)
  | .float q => some q
  | _ => none

/-- Python `v1 + v2` on the fragment the library uses: string and list
concatenation, and the numeric tower (int results stay int, any float
operand gives float). -/
def pyAdd (a b : Value) : Except PyErr Value :=
  match a, b with
  | .str s1, .str s2 => .ok (.str (s1 ++ s2))
  | .list l1, .list l2 => .ok (.list (l1 ++ l2))
  | _, _ =>
    match toIntN a, toIntN b with
    | some x, some y => .ok (.int (x + y))
    | _, _ =>
      match toRatN a, toRatN b with
      | some x, some y => .ok (.float (x + y))
      | _, _ => .error (.typeError "unsupported operand type(s) for +")

/-- Python `v1 - v2` (numeric fragment). -/
def pySub (a b : Value) : Except PyErr Value :=
  match toIntN a, toIntN b with
  | some x, some y => .ok (.int (x - y))
  | _, _ =>
    match toRatN a, toRatN b with
    | some x, some y => .ok (.float (x - y))
    | _, _ => .error (.typeError "unsupported operand type(s) for -")

/-- Python `v1 * v2` (numeric fragment). -/
def pyMul (a b : Value) : Except PyErr Value :=
  match toIntN a, toIntN b with
  | some x, some y => .ok (.int (x * y))
  | _, _ =>
    match toRatN a, toRatN b with
    | some x, some y => .ok (.float (x * y))
    | _, _ => .error (.typeError "unsupported operand type(s) for *")

/-- Python `float(v)`.  Numeric-string conversion is not modelled (treated
as failing); none of the library code or tests converts strings. -/
def pyFloat : Value → Except PyErr ℚ
  | .int n => .ok (n : ℚ)
  | .bool b => .ok (cond b 1 0)
  | .float q => .ok q
  | .str _ => .error (.valueError "could not convert string to float")
  | _ => .error (.typeError "float() argument must be a string or a real number")

/-- Div.op from core.py: `float(v1) / float(v2)`. -/
def pyDiv (a b : Value) : Except PyErr Value :=
  match pyFloat a with
  | .error e => .error e
  | .ok x =>
    match pyFloat b with
    | .error e => .error e
    | .ok y =>
      if y == 0 then .error (.zeroDivisionError "float division by zero")
      else .ok (.float (x / y))

/-- Neg.op from core.py: `-v`. -/
def pyNeg : Value → Except PyErr Value
  | .int n => .ok (.int (-n))
  | .bool b => .ok (.int (-(cond b 1 0)))
  | .float q => .ok (.float (-q))
  | _ => .error (.typeError "bad operand type for unary -")

/-- Indexing a list with a Python int (negative indices count from the
end); out of range raises IndexError. -/
def listIndex (xs : List Value) (n : ℤ) : Except PyErr Value :=
  let i := if n < 0 then n + xs.length else n
  if h : 0 ≤ i ∧ i.toNat < xs.length then .ok (xs.get ⟨i.toNat, h.2⟩)
  else .error (.indexError "list index out of range")

/-- Indexing a string with a Python int. -/
def strIndex (s : String) (n : ℤ) : Except PyErr Value :=
  let cs := s.data
  let i := if n < 0 then n + cs.length else n
  if h : 0 ≤ i ∧ i.toNat < cs.length then .ok (.str (String.mk [cs.get ⟨i.toNat, h.2⟩]))
  else .error (.indexError "string index out of range")

/-- GetItem.execute from core.py: `value[index]`, for the scalar indices the
library supports (slices are not modelled; no claim involves them).
Missing dict keys raise KeyError(key); unhashable keys raise TypeError. -/
def pyGetItem : Value → Value → Except PyErr Value
  | .dict ds, idx =>
    match idx with
    | .list _ => .error (.typeError "unhashable type: \x27list\x27")
    | .dict _ => .error (.typeError "unhashable type: \x27dict\x27")
    | .str s =>
      match ds.find? (fun p => p.1 == s) with
      | some p => .ok p.2
      | none => .error (.keyError idx)
    | _ => .error (.keyError idx)
  | .list xs, idx =>
    match idx with
    | .int n => listIndex xs n
    | .bool b => listIndex xs (cond b 1 0)
    | _ => .error (.typeError "list indices must be integers or slices")
  | .str s, idx =>
    match idx with
    | .int n => strIndex s n
    | .bool b => strIndex s (cond b 1 0)
    | _ => .error (.typeError "string indices must be integers")
  | _, _ => .error (.typeError "object is not subscriptable")

/-- Python iteration over a value (lists yield elements, strings yield
characters, dicts yield their keys). -/
def pyIter : Value → Except PyErr (List Value)
  | .list xs => .ok xs
  | .str s => .ok (s.data.map (fun c => .str (String.mk [c])))
  | .dict ds => .ok (ds.map (fun p => .str p.1))
  | _ => .error (.typeError "object is not iterable")

/-- Transport from core.py: the (value, context) pair threaded through
evaluation.  `Transport.from_source` wraps a plain value with context `{}`;
the wrapping is applied at the call boundaries below. -/
structure Transport where
  value : Value
  context : Value

mutual

/-- The bender expression tree.  Constructors follow the node classes of the
source: K, List, Dict, GetItem, Compose, Neg, Add, Sub, Mul, Div, Context
(core.py); If, Alternation, Switch (control_flow.py); Forall, Reduce and
ForallBend (list_ops.py).  `forallB` and `reduceB` carry the optional
deprecated bender of the two-argument ListOp constructor, and the plain
Python function passed by the caller (modelled as a Lean function returning
`Except`). -/
inductive Bender where
  | K (v : Value) : Bender
  | blist (bs : List Bender) : Bender
  | bdict (ds : List (String × Bender)) : Bender
  | getItem (idx : Value) : Bender
  | compose (first second : Bender) : Bender
  | neg (b : Bender) : Bender
  | add (a b : Bender) : Bender
  | sub (a b : Bender) : Bender
  | mul (a b : Bender) : Bender
  | div (a b : Bender) : Bender
  | context : Bender
  | ifB (condition whenTrue whenFalse : Bender) : Bender
  | alternation (bs : List Bender) : Bender
  | switch (keyBender : Bender) (cases : List (String × Bender))
      (dflt : Option Bender) : Bender
  | forallB (ob : Option Bender) (f : Value → Except PyErr Value) : Bender
  | reduceB (ob : Option Bender) (f : Value → Value → Except PyErr Value) : Bender
  | forallBend (m : Mapping) : Bender

/-- A "mapping" as accepted by `benderify` / `bend`: a mixed structure whose
leaves are either bender nodes or plain literal values, with plain lists and
dicts in between. -/
inductive Mapping where
  | mbender (b : Bender) : Mapping
  | mvalue (v : Value) : Mapping
  | mlist (ms : List Mapping) : Mapping
  | mdict (ms : List (String × Mapping)) : Mapping

end

mutual

/-- The primary evaluation protocol, `Bender.raw_execute` and its overrides
(core.py).  The Transport has already been built by `Transport.from_source`
at the boundary (`from_source` is the identity on Transports, so passing it
through is faithful).  Node classes that override neither `execute` nor
`raw_execute` (the control-flow and list-op combinators, which only define
the legacy `bend`) fall through to `Bender.execute`, which raises
NotImplementedError. -/
def rawExecute : Bender → Transport → Except PyErr Transport
  | .K v, t => .ok ⟨v, t.context⟩
  | .blist bs, t =>
    match execList bs t with
    | .ok vs => .ok ⟨.list vs, t.context⟩
    | .error e => .error e
  | .bdict ds, t =>
    match execDict ds t with
    | .ok ps => .ok ⟨.dict ps, t.context⟩
    | .error e => .error e
  | .getItem idx, t =>
    match pyGetItem t.value idx with
    | .ok v => .ok ⟨v, t.context⟩
    | .error e => .error e
  | .compose f s, t =>
    match rawExecute f t with
    | .ok t1 => rawExecute s t1
    | .error e => .error e
  | .neg b, t =>
    match rawExecute b t with
    | .ok t1 =>
      match pyNeg t1.value with
      | .ok v => .ok ⟨v, t.context⟩
      | .error e => .error e
    | .error e => .error e
  | .add a b, t =>
    match rawExecute a t with
    | .ok t1 =>
      match rawExecute b t with
      | .ok t2 =>
        match pyAdd t1.value t2.value with
        | .ok v => .ok ⟨v, t.context⟩
        | .error e => .error e
      | .error e => .error e
    | .error e => .error e
  | .sub a b, t =>
    match rawExecute a t with
    | .ok t1 =>
      match rawExecute b t with
      | .ok t2 =>
        match pySub t1.value t2.value with
        | .ok v => .ok ⟨v, t.context⟩
        | .error e => .error e
      | .error e => .error e
    | .error e => .error e
  | .mul a b, t =>
    match rawExecute a t with
    | .ok t1 =>
      match rawExecute b t with
      | .ok t2 =>
        match pyMul t1.value t2.value with
        | .ok v => .ok ⟨v, t.context⟩
        | .error e => .error e
      | .error e => .error e
    | .error e => .error e
  | .div a b, t =>
    match rawExecute a t with
    | .ok t1 =>
      match rawExecute b t with
      | .ok t2 =>
        match pyDiv t1.value t2.value with
        | .ok v => .ok ⟨v, t.context⟩
        | .error e => .error e
      | .error e => .error e
    | .error e => .error e
  | .context, t => .ok ⟨t.context, t.context⟩
  | .ifB _ _ _, _ => .error .notImplementedError
  | .alternation _, _ => .error .notImplementedError
  | .switch _ _ _, _ => .error .notImplementedError
  | .forallB _ _, _ => .error .notImplementedError
  | .reduceB _ _, _ => .error .notImplementedError
  | .forallBend _, _ => .error .notImplementedError

/-- List.raw_execute (core.py): evaluate every element against the same
Transport, collecting the values; a failing element's exception propagates
unwrapped. -/
def execList : List Bender → Transport → Except PyErr (List Value)
  | [], _ => .ok []
  | b :: bs, t =>
    match rawExecute b t with
    | .ok tv =>
      match execList bs t with
      | .ok vs => .ok (tv.value :: vs)
      | .error e => .error e
    | .error e => .error e

/-- Dict.raw_execute (core.py): evaluate every entry against the same
Transport; any exception from a key's child is caught and re-raised as
BendingException("Error for key k: str(e)"). -/
def execDict : List (String × Bender) → Transport → Except PyErr (List (String × Value))
  | [], _ => .ok []
  | (k, b) :: rest, t =>
    match rawExecute b t with
    | .ok tv =>
      match execDict rest t with
      | .ok ps => .ok ((k, tv.value) :: ps)
      | .error e => .error e
    | .error e => .error (.bendingException ("Error for key " ++ k ++ ": " ++ pyStr e))

end

/-- Bender.__call__ on a plain (non-Transport) source: `from_source` wraps it
with context `{}`, `raw_execute` runs, and only the resulting value is
returned. -/
def callForm (b : Bender) (source : Value) : Except PyErr Value :=
  (rawExecute b ⟨source, .dict []⟩).map (fun t => t.value)

mutual

/-- The recursion benderify performs inside plain literal values: a plain
list or dict reaching benderify is wrapped as List/Dict over its elementwise
benderified contents, and any other plain value is wrapped as `K(value)`
verbatim. -/
def valueToBender : Value → Bender
  | .list vs => .blist (valueListToBenders vs)
  | .dict ds => .bdict (valueDictToBenders ds)
  | v => .K v

def valueListToBenders : List Value → List Bender
  | [] => []
  | v :: vs => valueToBender v :: valueListToBenders vs

def valueDictToBenders : List (String × Value) → List (String × Bender)
  | [] => []
  | (k, v) :: rest => (k, valueToBender v) :: valueDictToBenders rest

end

mutual

/-- benderify (core.py): lists become List nodes, dicts become Dict nodes
(recursively benderified), a value that is already a Bender is returned
unchanged, and anything else becomes `K(value)`. -/
def benderify : Mapping → Bender
  | .mlist ms => .blist (benderifyList ms)
  | .mdict ms => .bdict (benderifyDict ms)
  | .mbender b => b
  | .mvalue v => valueToBender v

def benderifyList : List Mapping → List Bender
  | [] => []
  | m :: ms => benderify m :: benderifyList ms

def benderifyDict : List (String × Mapping) → List (String × Bender)
  | [] => []
  | (k, m) :: rest => (k, benderify m) :: benderifyDict rest

end

/-- bend (core.py): the main entry point.  A None context defaults to `{}`;
the source and context are packed into a Transport and the benderified
mapping is called on it. -/
def bendFn (mapping : Mapping) (source : Value) (context : Option Value) :
    Except PyErr Value :=
  let ctx := match context with
    | none => Value.dict []
    | some c => c
  (rawExecute (benderify mapping) ⟨source, ctx⟩).map (fun t => t.value)

/-- Modelled from the spec: the base-class legacy call form `Bender.bend`.
It is not under src/ — only its callers are (`BenderTestMixin.assert_bender`
in jsonbender/test.py, the operator tests in tests/test_core.py, and the
combinators' invocations of their children's `bend`).  Per the spec, "A
secondary legacy call form `bend(source)` exists for early combinators and
must behave identically to the primary call for plain values", so for node
classes that do not override `bend` it is the primary call on a plain
value. -/
def bendBase (b : Bender) (v : Value) : Except PyErr Value :=
  callForm b v

/-- The TypeError that a Python dict lookup raises for an unhashable key
(lists and dicts), if any; hashable keys give none. -/
def unhashableErr : Value → Option PyErr
  | .list _ => some (.typeError "unhashable type: \x27list\x27")
  | .dict _ => some (.typeError "unhashable type: \x27dict\x27")
  | _ => none

/-- Forall.op (list_ops.py): `list(map(func, vals))` — iterate the value,
apply the function to each element left to right (the first exception
propagates), and collect the results into a list. -/
def forallOp (f : Value → Except PyErr Value) (v : Value) : Except PyErr Value :=
  match pyIter v with
  | .error e => .error e
  | .ok xs =>
    match xs.mapM f with
    | .ok rs => .ok (.list rs)
    | .error e => .error e

/-- Reduce.op (list_ops.py): `reduce(func, vals)` with any TypeError
converted to a ValueError carrying the same message (the comment in the
source says this is for the empty-iterable case, but the conversion applies
to any TypeError escaping the reduce call). -/
def reduceOp (f : Value → Value → Except PyErr Value) (v : Value) :
    Except PyErr Value :=
  let r : Except PyErr Value :=
    match pyIter v with
    | .error e => .error e
    | .ok [] => .error (.typeError "reduce() of empty iterable with no initial value")
    | .ok (x :: rest) => rest.foldlM f x
  match r with
  | .error (.typeError m) => .error (.valueError m)
  | r => r

mutual

/-- The legacy `bend(source)` protocol.  The arms for If, Alternation,
Switch (control_flow.py) and the ListOp subclasses (list_ops.py) translate
those classes' `bend` methods; every other node class falls through to the
base-class `bend` (`bendBase`, modelled from the spec).  ForallBend.bend
sets the function to `lambda v: bend(self._mapping, v)` — note that the
`context` argument of its constructor is discarded by the source — and
delegates to ListOp.bend with `_bender = None`. -/
def bendM : Bender → Value → Except PyErr Value
  | .ifB c tb fb, v =>
    match bendM c v with
    | .ok cv => if truthy cv then bendM tb v else bendM fb v
    | .error e => .error e
  | .alternation bs, v => altLoop bs (.valueError "") v
  | .switch kb cases (some d), v =>
    match bendM kb v with
    | .ok kv =>
      match unhashableErr kv with
      | some e => .error e
      | none =>
        match switchSel kv cases v with
        | some r => r
        | none => bendM d v
    | .error e => .error e
  | .switch kb cases none, v =>
    match bendM kb v with
    | .ok kv =>
      match unhashableErr kv with
      | some e => .error e
      | none =>
        match switchSel kv cases v with
        | some r => r
        | none => .error (.keyError kv)
    | .error e => .error e
  | .forallB ob f, v =>
    match ob with
    | some b =>
      match bendM b v with
      | .ok v2 => forallOp f v2
      | .error e => .error e
    | none => forallOp f v
  | .reduceB ob f, v =>
    match ob with
    | some b =>
      match bendM b v with
      | .ok v2 => reduceOp f v2
      | .error e => .error e
    | none => reduceOp f v
  | .forallBend m, v => forallOp (fun x => bendFn m x none) v
  | b, v => bendBase b v

/-- The loop of Alternation.bend: `exc` starts as `ValueError()`; each
bender is tried in turn, a LookupError is remembered and the next bender
tried, any other exception propagates immediately, a success is returned,
and when the benders run out the remembered exception is raised. -/
def altLoop : List Bender → PyErr → Value → Except PyErr Value
  | [], exc, _ => .error exc
  | b :: rest, _, v =>
    match bendM b v with
    | .ok r => .ok r
    | .error e => if e.isLookup then altLoop rest e v else .error e

/-- The `self.cases[key]` lookup of Switch.bend, fused with the evaluation
of the found case: returns `some` of the chosen case's `bend` result when
the key matches an entry, `none` when the key is absent. -/
def switchSel : Value → List (String × Bender) → Value → Option (Except PyErr Value)
  | _, [], _ => none
  | kv, (k, b) :: rest, v =>
    match kv with
    | .str s => if s == k then some (bendM b v) else switchSel kv rest v
    | _ => switchSel kv rest v

end

/-- Bender.__truediv__ (core.py): `a / b` builds a Div node. -/
def truedivOp (a b : Bender) : Bender := .div a b

/-- Bender.__floordiv__ (core.py): `a // b` also builds a Div node. -/
def floordivOp (a b : Bender) : Bender := .div a b

/-- If construction with both branches omitted (control_flow.py): the
`when_true` and `when_false` parameters default to `K(None)`. -/
def ifDefaults (c : Bender) : Bender := .ifB c (.K .null) (.K .null)

/-- ForallBend construction (list_ops.py __init__): stores the mapping and
sets the deprecated `_bender` slot to None.  The `context` parameter is
accepted but not stored by the source. -/
def mkForallBend (mapping : Mapping) (context : Option Value) : Bender :=
  .forallBend mapping

/-- Whether an evaluation result is a success. -/
def resOk : Except PyErr Transport → Bool
  | .ok _ => true
  | .error _ => false

/-- Whether a legacy-protocol evaluation result is a LookupError-class
failure. -/
def lookupRes : Except PyErr Value → Bool
  | .error e => e.isLookup
  | .ok _ => false

/-- The pure part of the `self.cases[key]` lookup in Switch.bend: the case
bender bound to the evaluated key, if any. -/
def casesFind (kv : Value) : List (String × Bender) → Option Bender
  | [] => none
  | (k, b) :: rest =>
    match kv with
    | .str s => if s == k then some b else casesFind kv rest
    | _ => casesFind kv rest

/-- Python hashability of the modelled values (lists and dicts are
unhashable). -/
def hashableV : Value → Bool
  | .list _ => false
  | .dict _ => false
  | _ => true

section UnfoldingLemmas

/-- One-step unfolding of the If arm of the legacy protocol. -/
theorem bendM_ifB (c tb fb : Bender) (v : Value) :
    bendM (.ifB c tb fb) v = match bendM c v with
      | .ok cv => if truthy cv then bendM tb v else bendM fb v
      | .error e => .error e := rfl

/-- If arm when the condition result is known. -/
theorem bendM_ifB_ok {c : Bender} {v cv : Value} (tb fb : Bender)
    (h : bendM c v = .ok cv) :
    bendM (.ifB c tb fb) v = if truthy cv then bendM tb v else bendM fb v := by
  rw [bendM_ifB, h]

/-- One-step unfolding of the Alternation arm. -/
theorem bendM_alternation (bs : List Bender) (v : Value) :
    bendM (.alternation bs) v = altLoop bs (.valueError "") v := rfl

/-- One-step unfolding of the Switch arm with a default. -/
theorem bendM_switch_some (kb : Bender) (cases : List (String × Bender))
    (d : Bender) (v : Value) :
    bendM (.switch kb cases (some d)) v = match bendM kb v with
      | .ok kv =>
        match unhashableErr kv with
        | some e => .error e
        | none =>
          match switchSel kv cases v with
          | some r => r
          | none => bendM d v
      | .error e => .error e := rfl

/-- One-step unfolding of the Switch arm without a default. -/
theorem bendM_switch_none (kb : Bender) (cases : List (String × Bender))
    (v : Value) :
    bendM (.switch kb cases none) v = match bendM kb v with
      | .ok kv =>
        match unhashableErr kv with
        | some e => .error e
        | none =>
          match switchSel kv cases v with
          | some r => r
          | none => .error (.keyError kv)
      | .error e => .error e := rfl

/-- One-step unfolding of the Forall arm built by the one-argument
constructor. -/
theorem bendM_forallB_none (f : Value → Except PyErr Value) (v : Value) :
    bendM (.forallB none f) v = forallOp f v := rfl

/-- One-step unfolding of the Reduce arm built by the one-argument
constructor. -/
theorem bendM_reduceB_none (f : Value → Value → Except PyErr Value) (v : Value) :
    bendM (.reduceB none f) v = reduceOp f v := rfl

/-- One-step unfolding of the Alternation loop. -/
theorem altLoop_cons (b : Bender) (rest : List Bender) (exc : PyErr) (v : Value) :
    altLoop (b :: rest) exc v = match bendM b v with
      | .ok r => .ok r
      | .error e => if e.isLookup then altLoop rest e v else .error e := rfl

/-- One-step unfolding of the Switch case selection. -/
theorem switchSel_cons (kv : Value) (k : String) (b : Bender)
    (rest : List (String × Bender)) (v : Value) :
    switchSel kv ((k, b) :: rest) v = match kv with
      | .str s => if s == k then some (bendM b v) else switchSel kv rest v
      | _ => switchSel kv rest v := rfl

/-- One-step unfolding of Div's raw_execute. -/
theorem rawExecute_div (a b : Bender) (t : Transport) :
    rawExecute (.div a b) t = match rawExecute a t with
      | .ok t1 =>
        match rawExecute b t with
        | .ok t2 =>
          match pyDiv t1.value t2.value with
          | .ok v => .ok ⟨v, t.context⟩
          | .error e => .error e
        | .error e => .error e
      | .error e => .error e := rfl

/-- One-step unfolding of Dict's raw_execute. -/
theorem rawExecute_bdict (ds : List (String × Bender)) (t : Transport) :
    rawExecute (.bdict ds) t = match execDict ds t with
      | .ok ps => .ok ⟨.dict ps, t.context⟩
      | .error e => .error e := rfl

/-- One-step unfolding of the Dict evaluation loop. -/
theorem execDict_cons (k : String) (b : Bender) (rest : List (String × Bender))
    (t : Transport) :
    execDict ((k, b) :: rest) t = match rawExecute b t with
      | .ok tv =>
        match execDict rest t with
        | .ok ps => .ok ((k, tv.value) :: ps)
        | .error e => .error e
      | .error e =>
        .error (.bendingException ("Error for key " ++ k ++ ": " ++ pyStr e)) := rfl

end UnfoldingLemmas

/-- C9: benderify is idempotent.  benderify of a value that is already a
Bender returns it unchanged, so benderify(benderify(x)) is literally the
same bender tree as benderify(x), and the two evaluate identically against
every source transport. -/
theorem benderify_idempotent (m : Mapping) :
    benderify (.mbender (benderify m)) = benderify m ∧
    ∀ t : Transport, rawExecute (benderify (.mbender (benderify m))) t =
      rawExecute (benderify m) t :=
  ⟨rfl, fun _ => rfl⟩

/-- C10: the floor-division operator builds the same Div node as true
division, so `a // b` evaluates exactly like `a / b`; in particular
`K(5) // K(2)` evaluates to the float 5/2 = 2.5, not the floored 2. -/
theorem floordiv_builds_div (a b : Bender) :
    floordivOp a b = truedivOp a b ∧
    (∀ t : Transport, rawExecute (floordivOp a b) t = rawExecute (truedivOp a b) t) ∧
    bendFn (.mbender (floordivOp (.K (.int 5)) (.K (.int 2)))) .null none =
      .ok (.float (5 / 2)) :=
  ⟨rfl, fun _ => rfl, rfl⟩

/-- C1 (code bug witness): the primary call form and the legacy bend form do
not behave identically.  For the If combinator with both branches defaulted,
`bend({})` returns None while calling the node raises NotImplementedError
(If overrides only `bend`, so `__call__` falls through to the base
`execute`), although the docstrings of control_flow.py call these very
nodes with the primary form. -/
theorem if_call_vs_bend_diverges :
    bendM (ifDefaults (.K (.bool true))) (.dict []) = .ok .null ∧
    callForm (ifDefaults (.K (.bool true))) (.dict []) = .error .notImplementedError :=
  ⟨rfl, rfl⟩

/-- C5 (code bug witness): ForallBend discards the supplied context.  It is
equivalent to Forall with `fn = x => bend(mapping, x)` with NO context; on
the mapping `Context()` with the supplied context a-maps-to-1, the code
yields the empty dict for each element whereas a nested bend that received
the context would yield the context itself. -/
theorem forallbend_drops_context :
    (∀ (m : Mapping) (c : Option Value) (v : Value),
        bendM (mkForallBend m c) v =
          bendM (.forallB none (fun x => bendFn m x none)) v) ∧
    bendM (mkForallBend (.mbender .context) (some (.dict [("a", .int 1)])))
        (.list [.null]) = .ok (.list [.dict []]) ∧
    bendM (.forallB none
        (fun x => bendFn (.mbender .context) x (some (.dict [("a", .int 1)]))))
        (.list [.null]) = .ok (.list [.dict [("a", .int 1)]]) ∧
    Value.list [.dict []] ≠ Value.list [.dict [("a", .int 1)]] :=
  ⟨fun _ _ _ => rfl, rfl, rfl, by simp⟩

/-- C8: division of benders always produces a float: whenever both operands
evaluate and their values convert to float (and the divisor is nonzero),
the Div node returns the float quotient; in particular K(4)/K(2) bends to
2.0 and K(5)/K(2) bends to 2.5. -/
theorem div_always_float :
    (∀ (a b : Bender) (t t1 t2 : Transport) (q1 q2 : ℚ),
        rawExecute a t = .ok t1 → rawExecute b t = .ok t2 →
        pyFloat t1.value = .ok q1 → pyFloat t2.value = .ok q2 →
        (q2 == 0) = false →
        rawExecute (truedivOp a b) t = .ok ⟨.float (q1 / q2), t.context⟩) ∧
    bendFn (.mbender (truedivOp (.K (.int 4)) (.K (.int 2)))) .null none =
      .ok (.float 2) ∧
    bendFn (.mbender (truedivOp (.K (.int 5)) (.K (.int 2)))) .null none =
      .ok (.float (5 / 2)) := by
  refine ⟨?_, ?_, ?_⟩
  · intro a b t t1 t2 q1 q2 h1 h2 h3 h4 h5
    have hd : pyDiv t1.value t2.value = .ok (.float (q1 / q2)) := by
      simp [pyDiv, h3, h4, h5]
    show rawExecute (.div a b) t = _
    rw [rawExecute_div, h1, h2]
    show (match pyDiv t1.value t2.value with
      | .ok v => Except.ok (Transport.mk v t.context)
      | .error e => .error e) = _
    rw [hd]
  · have h : bendFn (.mbender (truedivOp (.K (.int 4)) (.K (.int 2)))) .null none =
        .ok (.float (((4 : ℤ) : ℚ) / ((2 : ℤ) : ℚ))) := rfl
    rw [h]
    norm_num
  · have h : bendFn (.mbender (truedivOp (.K (.int 5)) (.K (.int 2)))) .null none =
        .ok (.float (((5 : ℤ) : ℚ) / ((2 : ℤ) : ℚ))) := rfl
    rw [h]
    norm_num

/-- Witness for C8: the general part applied to K(5)/K(2) on a null source
with empty context. -/
theorem div_always_float_witness :
    rawExecute (truedivOp (.K (.int 5)) (.K (.int 2))) ⟨.null, .dict []⟩ =
      .ok ⟨.float (((5 : ℤ) : ℚ) / ((2 : ℤ) : ℚ)), .dict []⟩ :=
  div_always_float.1 (.K (.int 5)) (.K (.int 2)) ⟨.null, .dict []⟩
    ⟨.int 5, .dict []⟩ ⟨.int 2, .dict []⟩ ((5 : ℤ) : ℚ) ((2 : ℤ) : ℚ)
    rfl rfl rfl rfl (by norm_num)

/-- C7: an If with omitted branches produces null for the omitted branch:
with both branches defaulted the result is null whenever the condition
evaluates, whichever way it goes; with one branch supplied, selecting the
omitted branch also yields null. -/
theorem if_omitted_branches_null :
    (∀ (c : Bender) (v cv : Value), bendM c v = .ok cv →
        bendM (ifDefaults c) v = .ok .null) ∧
    (∀ (c tb : Bender) (v cv : Value), bendM c v = .ok cv → truthy cv = false →
        bendM (.ifB c tb (.K .null)) v = .ok .null) ∧
    (∀ (c fb : Bender) (v cv : Value), bendM c v = .ok cv → truthy cv = true →
        bendM (.ifB c (.K .null) fb) v = .ok .null) := by
  refine ⟨?_, ?_, ?_⟩
  · intro c v cv h
    show bendM (.ifB c (.K .null) (.K .null)) v = .ok .null
    rw [bendM_ifB_ok _ _ h]
    cases truthy cv <;> rfl
  · intro c tb v cv h hf
    rw [bendM_ifB_ok _ _ h, hf]
    rfl
  · intro c fb v cv h ht
    rw [bendM_ifB_ok _ _ h, ht]
    rfl

/-- Witness for C7: a constant-true and a constant-false condition. -/
theorem if_omitted_branches_null_witness :
    bendM (ifDefaults (.K (.bool false))) (.dict []) = .ok .null ∧
    bendM (.ifB (.K (.bool false)) (.K (.int 1)) (.K .null)) (.dict []) = .ok .null ∧
    bendM (.ifB (.K (.bool true)) (.K .null) (.K (.int 1))) (.dict []) = .ok .null :=
  ⟨if_omitted_branches_null.1 _ _ (.bool false) rfl,
   if_omitted_branches_null.2.1 _ _ _ (.bool false) rfl rfl,
   if_omitted_branches_null.2.2 _ _ _ (.bool true) rfl rfl⟩

/-- C6 (counterexample): Reduce on an empty sequence raises the builtin
ValueError, not a dedicated error class: the model's exception type, which
covers every class the source can raise, has no ReductionError, and the
error raised is of the same class (ValueError) as, for example, the one an
empty Alternation raises. -/
theorem reduce_empty_error_class :
    bendM (.reduceB none pyAdd) (.list []) =
      .error (.valueError "reduce() of empty iterable with no initial value") ∧
    bendM (.alternation []) .null = .error (.valueError "") ∧
    PyErr.className
        (.valueError "reduce() of empty iterable with no initial value") =
      PyErr.className (.valueError "") :=
  ⟨rfl, rfl, rfl⟩

/-- C6 (amended): Reduce on an empty sequence raises a ValueError wrapping
the message of the TypeError coming from Python's reduce; on a non-empty
sequence it left-folds with the first element as initial accumulator, e.g.
summing [1,4,6] gives 11. -/
theorem reduce_amended :
    (∀ f, bendM (.reduceB none f) (.list []) =
        .error (.valueError "reduce() of empty iterable with no initial value")) ∧
    (∀ (f : Value → Value → Except PyErr Value) (x : Value) (xs : List Value)
        (r : Value), xs.foldlM f x = .ok r →
        bendM (.reduceB none f) (.list (x :: xs)) = .ok r) ∧
    bendM (.reduceB none pyAdd) (.list [.int 1, .int 4, .int 6]) = .ok (.int 11) := by
  refine ⟨fun _ => rfl, ?_, rfl⟩
  intro f x xs r h
  rw [bendM_reduceB_none]
  simp [reduceOp, pyIter, h]

/-- Witness for C6 (amended): the fold part applied to addition over
[1,4,6]. -/
theorem reduce_amended_witness :
    bendM (.reduceB none pyAdd) (.list [.int 1, .int 4, .int 6]) = .ok (.int 11) :=
  reduce_amended.2.1 pyAdd (.int 1) [.int 4, .int 6] (.int 11) rfl

section DictLemmas

/-- If every entry before (k, b) succeeds and b fails with e, the Dict loop
stops at k and wraps e. -/
theorem execDict_err (t : Transport) (k : String) (b : Bender) (e : PyErr)
    (post : List (String × Bender)) :
    ∀ pre : List (String × Bender),
      (∀ p ∈ pre, resOk (rawExecute p.2 t) = true) →
      rawExecute b t = .error e →
      execDict (pre ++ (k, b) :: post) t =
        .error (.bendingException ("Error for key " ++ k ++ ": " ++ pyStr e)) := by
  intro pre
  induction pre with
  | nil =>
    intro _ hb
    rw [List.nil_append, execDict_cons, hb]
  | cons p pre ih =>
    intro hpre hb
    obtain ⟨k2, b2⟩ := p
    have h2 := hpre ⟨k2, b2⟩ (List.mem_cons_self _ _)
    cases hres : rawExecute b2 t with
    | error e2 =>
      rw [hres] at h2
      simp [resOk] at h2
    | ok tv =>
      rw [List.cons_append, execDict_cons, hres]
      show (match execDict (pre ++ (k, b) :: post) t with
        | .ok ps => Except.ok ((k2, tv.value) :: ps)
        | .error e => Except.error e) = _
      rw [ih (fun q hq => hpre q (List.mem_cons_of_mem _ hq)) hb]

/-- If every entry succeeds, the Dict loop returns the keys in order, each
paired with its child's result value. -/
theorem execDict_ok (t : Transport) :
    ∀ ds : List (String × Bender),
      (∀ p ∈ ds, resOk (rawExecute p.2 t) = true) →
      ∃ ps, execDict ds t = .ok ps ∧
        List.Forall₂ (fun (q : String × Value) (p : String × Bender) =>
          q.1 = p.1 ∧ ∃ tv, rawExecute p.2 t = .ok tv ∧ q.2 = tv.value) ps ds := by
  intro ds
  induction ds with
  | nil => exact fun _ => ⟨[], rfl, List.Forall₂.nil⟩
  | cons p ds ih =>
    intro h
    obtain ⟨k, b⟩ := p
    have h1 := h ⟨k, b⟩ (List.mem_cons_self _ _)
    cases hres : rawExecute b t with
    | error e =>
      rw [hres] at h1
      simp [resOk] at h1
    | ok tv =>
      obtain ⟨ps, hps, hfa⟩ := ih (fun q hq => h q (List.mem_cons_of_mem _ hq))
      refine ⟨(k, tv.value) :: ps, ?_, List.Forall₂.cons ⟨rfl, tv, hres, rfl⟩ hfa⟩
      rw [execDict_cons, hres]
      show (match execDict ds t with
        | .ok ps => Except.ok ((k, tv.value) :: ps)
        | .error e => Except.error e) = _
      rw [hps]

/-- The keys of a Forall₂-related result list match the input keys. -/
theorem forall2_keys {R : (String × Value) → (String × Bender) → Prop}
    (hR : ∀ q p, R q p → q.1 = p.1)
    {ps : List (String × Value)} {ds : List (String × Bender)}
    (h : List.Forall₂ R ps ds) :
    ps.map Prod.fst = ds.map Prod.fst := by
  induction h with
  | nil => rfl
  | cons hpq _ ih =>
    simp only [List.map_cons, ih, hR _ _ hpq]

end DictLemmas

/-- C2: Dict evaluation wraps per-key failures and preserves keys on
success.  If, iterating in order, every key before k succeeds and k's child
fails with any error e, the Dict raises a single BendingException whose
message names k and embeds str(e); if every key's child succeeds, the Dict
returns a mapping with exactly the same keys in order, each bound to its
child's result value. -/
theorem dict_key_attribution :
    (∀ (pre : List (String × Bender)) (k : String) (b : Bender)
        (post : List (String × Bender)) (t : Transport) (e : PyErr),
        (∀ p ∈ pre, resOk (rawExecute p.2 t) = true) →
        rawExecute b t = .error e →
        rawExecute (.bdict (pre ++ (k, b) :: post)) t =
          .error (.bendingException ("Error for key " ++ k ++ ": " ++ pyStr e))) ∧
    (∀ (ds : List (String × Bender)) (t : Transport),
        (∀ p ∈ ds, resOk (rawExecute p.2 t) = true) →
        ∃ ps, rawExecute (.bdict ds) t = .ok ⟨.dict ps, t.context⟩ ∧
          ps.map Prod.fst = ds.map Prod.fst ∧
          List.Forall₂ (fun (q : String × Value) (p : String × Bender) =>
            q.1 = p.1 ∧ ∃ tv, rawExecute p.2 t = .ok tv ∧ q.2 = tv.value) ps ds) := by
  constructor
  · intro pre k b post t e hpre hb
    rw [rawExecute_bdict, execDict_err t k b e post pre hpre hb]
  · intro ds t h
    obtain ⟨ps, hps, hfa⟩ := execDict_ok t ds h
    refine ⟨ps, ?_, forall2_keys (fun _ _ hqp => hqp.1) hfa, hfa⟩
    rw [rawExecute_bdict, hps]

/-- Witness for C2: a Dict with a succeeding key "a" and a key "b" whose
selector misses, evaluated against an empty dict source: the error names
"b" and carries the KeyError text. -/
theorem dict_key_attribution_witness :
    rawExecute (.bdict [("a", .K (.int 1)), ("b", .getItem (.str "missing"))])
        ⟨.dict [], .dict []⟩ =
      .error (.bendingException "Error for key b: \x27missing\x27") ∧
    ∃ ps, rawExecute (.bdict [("a", .K (.int 1))]) ⟨.dict [], .dict []⟩ =
        .ok ⟨.dict ps, .dict []⟩ ∧
      ps.map Prod.fst = ["a"] ∧
      List.Forall₂ (fun (q : String × Value) (p : String × Bender) =>
        q.1 = p.1 ∧ ∃ tv, rawExecute p.2 ⟨.dict [], .dict []⟩ = .ok tv ∧ q.2 = tv.value)
        ps [("a", .K (.int 1))] :=
  ⟨dict_key_attribution.1 [("a", .K (.int 1))] "b" (.getItem (.str "missing")) []
      ⟨.dict [], .dict []⟩ (.keyError (.str "missing"))
      (by intro p hp; rw [List.mem_singleton] at hp; subst hp; rfl) rfl,
   dict_key_attribution.2 [("a", .K (.int 1))] ⟨.dict [], .dict []⟩
      (by intro p hp; rw [List.mem_singleton] at hp; subst hp; rfl)⟩

section AlternationLemmas

/-- Skipping a prefix of LookupError-failing alternatives and hitting a
success returns that success, whatever error is remembered. -/
theorem altLoop_all_ok (v r : Value) (b : Bender) (bs2 : List Bender)
    (hb : bendM b v = .ok r) :
    ∀ (bs1 : List Bender) (exc : PyErr),
      (∀ b2 ∈ bs1, lookupRes (bendM b2 v) = true) →
      altLoop (bs1 ++ b :: bs2) exc v = .ok r := by
  intro bs1
  induction bs1 with
  | nil =>
    intro exc _
    rw [List.nil_append, altLoop_cons, hb]
  | cons b2 bs1 ih =>
    intro exc hpre
    have h2 := hpre b2 (List.mem_cons_self _ _)
    cases hres : bendM b2 v with
    | ok r2 =>
      rw [hres] at h2
      simp [lookupRes] at h2
    | error e2 =>
      rw [hres] at h2
      simp only [lookupRes] at h2
      rw [List.cons_append, altLoop_cons, hres]
      show (if e2.isLookup then altLoop (bs1 ++ b :: bs2) e2 v else .error e2) = _
      rw [h2]
      exact ih e2 (fun q hq => hpre q (List.mem_cons_of_mem _ hq))

/-- Skipping a prefix of LookupError-failing alternatives and hitting a
non-LookupError failure propagates it immediately. -/
theorem altLoop_fatal (v : Value) (e : PyErr) (b : Bender) (bs2 : List Bender)
    (hb : bendM b v = .error e) (he : e.isLookup = false) :
    ∀ (bs1 : List Bender) (exc : PyErr),
      (∀ b2 ∈ bs1, lookupRes (bendM b2 v) = true) →
      altLoop (bs1 ++ b :: bs2) exc v = .error e := by
  intro bs1
  induction bs1 with
  | nil =>
    intro exc _
    rw [List.nil_append, altLoop_cons, hb]
    show (if e.isLookup then altLoop bs2 e v else .error e) = _
    rw [he]
    rfl
  | cons b2 bs1 ih =>
    intro exc hpre
    have h2 := hpre b2 (List.mem_cons_self _ _)
    cases hres : bendM b2 v with
    | ok r2 =>
      rw [hres] at h2
      simp [lookupRes] at h2
    | error e2 =>
      rw [hres] at h2
      simp only [lookupRes] at h2
      rw [List.cons_append, altLoop_cons, hres]
      show (if e2.isLookup then altLoop (bs1 ++ b :: bs2) e2 v else .error e2) = _
      rw [h2]
      exact ih e2 (fun q hq => hpre q (List.mem_cons_of_mem _ hq))

/-- When every alternative fails with a LookupError, the loop re-raises the
error of the last alternative. -/
theorem altLoop_all_lookup (v : Value) (e : PyErr) (b : Bender)
    (hb : bendM b v = .error e) (hl : e.isLookup = true) :
    ∀ (bs1 : List Bender) (exc : PyErr),
      (∀ b2 ∈ bs1, lookupRes (bendM b2 v) = true) →
      altLoop (bs1 ++ [b]) exc v = .error e := by
  intro bs1
  induction bs1 with
  | nil =>
    intro exc _
    rw [List.nil_append, altLoop_cons, hb]
    show (if e.isLookup then altLoop [] e v else .error e) = _
    rw [hl]
    rfl
  | cons b2 bs1 ih =>
    intro exc hpre
    have h2 := hpre b2 (List.mem_cons_self _ _)
    cases hres : bendM b2 v with
    | ok r2 =>
      rw [hres] at h2
      simp [lookupRes] at h2
    | error e2 =>
      rw [hres] at h2
      simp only [lookupRes] at h2
      rw [List.cons_append, altLoop_cons, hres]
      show (if e2.isLookup then altLoop (bs1 ++ [b]) e2 v else .error e2) = _
      rw [h2]
      exact ih e2 (fun q hq => hpre q (List.mem_cons_of_mem _ hq))

end AlternationLemmas

/-- C3: Alternation tries its alternatives left to right: it returns the
result of the first alternative that does not raise a LookupError-class
error; a failure of any other class propagates immediately without trying
later alternatives; and when every alternative raises a LookupError-class
error, the error raised by the last alternative is re-raised. -/
theorem alternation_error_policy :
    (∀ (bs1 : List Bender) (b : Bender) (bs2 : List Bender) (v r : Value),
        (∀ b2 ∈ bs1, lookupRes (bendM b2 v) = true) → bendM b v = .ok r →
        bendM (.alternation (bs1 ++ b :: bs2)) v = .ok r) ∧
    (∀ (bs1 : List Bender) (b : Bender) (bs2 : List Bender) (v : Value) (e : PyErr),
        (∀ b2 ∈ bs1, lookupRes (bendM b2 v) = true) → bendM b v = .error e →
        e.isLookup = false →
        bendM (.alternation (bs1 ++ b :: bs2)) v = .error e) ∧
    (∀ (bs1 : List Bender) (b : Bender) (v : Value) (e : PyErr),
        (∀ b2 ∈ bs1, lookupRes (bendM b2 v) = true) → bendM b v = .error e →
        e.isLookup = true →
        bendM (.alternation (bs1 ++ [b])) v = .error e) := by
  refine ⟨?_, ?_, ?_⟩
  · intro bs1 b bs2 v r hpre hb
    rw [bendM_alternation]
    exact altLoop_all_ok v r b bs2 hb bs1 _ hpre
  · intro bs1 b bs2 v e hpre hb he
    rw [bendM_alternation]
    exact altLoop_fatal v e b bs2 hb he bs1 _ hpre
  · intro bs1 b v e hpre hb hl
    rw [bendM_alternation]
    exact altLoop_all_lookup v e b hb hl bs1 _ hpre

/-- Witness for C3: selectors against an empty dict source.  A missing key
then a constant returns the constant; a missing key then an unhashable
selector propagates the TypeError; two missing keys raise the KeyError of
the last. -/
theorem alternation_error_policy_witness :
    bendM (.alternation [.getItem (.str "a"), .K (.int 7)]) (.dict []) = .ok (.int 7) ∧
    bendM (.alternation [.getItem (.str "a"), .getItem (.list [])]) (.dict []) =
      .error (.typeError "unhashable type: \x27list\x27") ∧
    bendM (.alternation [.getItem (.str "a"), .getItem (.str "b")]) (.dict []) =
      .error (.keyError (.str "b")) :=
  ⟨alternation_error_policy.1 [.getItem (.str "a")] (.K (.int 7)) [] (.dict []) (.int 7)
      (by intro b2 hb2; rw [List.mem_singleton] at hb2; subst hb2; rfl) rfl,
   alternation_error_policy.2.1 [.getItem (.str "a")] (.getItem (.list [])) [] (.dict [])
      (.typeError "unhashable type: \x27list\x27")
      (by intro b2 hb2; rw [List.mem_singleton] at hb2; subst hb2; rfl) rfl rfl,
   alternation_error_policy.2.2 [.getItem (.str "a")] (.getItem (.str "b")) (.dict [])
      (.keyError (.str "b"))
      (by intro b2 hb2; rw [List.mem_singleton] at hb2; subst hb2; rfl) rfl rfl⟩

section SwitchLemmas

/-- The fused selection loop agrees with the pure lookup followed by
bending the found case. -/
theorem switchSel_eq_find (v : Value) :
    ∀ (cases : List (String × Bender)) (kv : Value),
      switchSel kv cases v = (casesFind kv cases).map (fun b => bendM b v) := by
  intro cases
  induction cases with
  | nil => intro kv; rfl
  | cons p rest ih =>
    intro kv
    obtain ⟨k, b⟩ := p
    rw [switchSel_cons]
    cases kv with
    | str s =>
      show (if s == k then some (bendM b v) else switchSel (.str s) rest v) = _
      cases hsk : s == k with
      | true => simp [casesFind, hsk]
      | false => simp [casesFind, hsk, ih]
    | null => exact ih _
    | bool b2 => exact ih _
    | int n => exact ih _
    | float q => exact ih _
    | list l => exact ih _
    | dict d => exact ih _

/-- A found case key implies the evaluated key is a string (only string
keys populate the modelled case tables). -/
theorem casesFind_isStr {kv : Value} {b : Bender} :
    ∀ {cases : List (String × Bender)},
      casesFind kv cases = some b → ∃ s, kv = .str s := by
  intro cases
  induction cases with
  | nil => intro h; exact absurd h (by simp [casesFind])
  | cons p rest ih =>
    intro h
    obtain ⟨k, b2⟩ := p
    cases kv with
    | str s => exact ⟨s, rfl⟩
    | null => exact ih h
    | bool b3 => exact ih h
    | int n => exact ih h
    | float q => exact ih h
    | list l => exact ih h
    | dict d => exact ih h

/-- Hashable keys never trigger the unhashable-key TypeError. -/
theorem unhashableErr_of_hashable {kv : Value} (h : hashableV kv = true) :
    unhashableErr kv = none := by
  cases kv <;> first | rfl | simp [hashableV] at h

end SwitchLemmas

/-- C4: Switch evaluates the key bender to obtain a key; when the key is
bound in the case table only that case's bender is evaluated and its result
returned; when it is absent and a default was supplied the default is
evaluated; when it is absent and no default was supplied the lookup failure
(the KeyError for the evaluated key) is re-raised; and the result never
depends on the benders of non-chosen cases. -/
theorem switch_dispatch :
    (∀ (kb : Bender) (cases : List (String × Bender)) (dflt : Option Bender)
        (v kv : Value) (b : Bender),
        bendM kb v = .ok kv → casesFind kv cases = some b →
        bendM (.switch kb cases dflt) v = bendM b v) ∧
    (∀ (kb : Bender) (cases : List (String × Bender)) (d : Bender) (v kv : Value),
        bendM kb v = .ok kv → hashableV kv = true → casesFind kv cases = none →
        bendM (.switch kb cases (some d)) v = bendM d v) ∧
    (∀ (kb : Bender) (cases : List (String × Bender)) (v kv : Value),
        bendM kb v = .ok kv → hashableV kv = true → casesFind kv cases = none →
        bendM (.switch kb cases none) v = .error (.keyError kv)) ∧
    (∀ (kb : Bender) (cases1 cases2 : List (String × Bender)) (dflt : Option Bender)
        (v kv : Value),
        bendM kb v = .ok kv → casesFind kv cases1 = casesFind kv cases2 →
        bendM (.switch kb cases1 dflt) v = bendM (.switch kb cases2 dflt) v) := by
  refine ⟨?_, ?_, ?_, ?_⟩
  · intro kb cases dflt v kv b h hf
    obtain ⟨s, rfl⟩ := casesFind_isStr hf
    cases dflt with
    | some d =>
      rw [bendM_switch_some, h]
      show (match switchSel (.str s) cases v with
        | some r => r
        | none => bendM d v) = bendM b v
      rw [switchSel_eq_find, hf]
      rfl
    | none =>
      rw [bendM_switch_none, h]
      show (match switchSel (.str s) cases v with
        | some r => r
        | none => Except.error (.keyError (.str s))) = bendM b v
      rw [switchSel_eq_find, hf]
      rfl
  · intro kb cases d v kv h hh hf
    rw [bendM_switch_some, h]
    show (match unhashableErr kv with
      | some e => Except.error e
      | none =>
        match switchSel kv cases v with
        | some r => r
        | none => bendM d v) = bendM d v
    rw [unhashableErr_of_hashable hh, switchSel_eq_find, hf]
    rfl
  · intro kb cases v kv h hh hf
    rw [bendM_switch_none, h]
    show (match unhashableErr kv with
      | some e => Except.error e
      | none =>
        match switchSel kv cases v with
        | some r => r
        | none => Except.error (.keyError kv)) = Except.error (.keyError kv)
    rw [unhashableErr_of_hashable hh, switchSel_eq_find, hf]
    rfl
  · intro kb cases1 cases2 dflt v kv h heq
    cases dflt with
    | some d =>
      rw [bendM_switch_some, bendM_switch_some, h]
      show (match unhashableErr kv with
        | some e => Except.error e
        | none =>
          match switchSel kv cases1 v with
          | some r => r
          | none => bendM d v) =
        (match unhashableErr kv with
        | some e => Except.error e
        | none =>
          match switchSel kv cases2 v with
          | some r => r
          | none => bendM d v)
      rw [switchSel_eq_find, switchSel_eq_find, heq]
    | none =>
      rw [bendM_switch_none, bendM_switch_none, h]
      show (match unhashableErr kv with
        | some e => Except.error e
        | none =>
          match switchSel kv cases1 v with
          | some r => r
          | none => Except.error (.keyError kv)) =
        (match unhashableErr kv with
        | some e => Except.error e
        | none =>
          match switchSel kv cases2 v with
          | some r => r
          | none => Except.error (.keyError kv))
      rw [switchSel_eq_find, switchSel_eq_find, heq]

/-- Witness for C4: the spec's scenario — a service key dispatched against
a one-entry case table with and without a default. -/
theorem switch_dispatch_witness :
    bendM (.switch (.getItem (.str "service")) [("twitter", .getItem (.str "handle"))]
        (some (.getItem (.str "email"))))
      (.dict [("service", .str "twitter"), ("handle", .str "h1")]) = .ok (.str "h1") ∧
    bendM (.switch (.getItem (.str "service")) [("twitter", .getItem (.str "handle"))]
        (some (.getItem (.str "email"))))
      (.dict [("service", .str "facebook"), ("email", .str "e1")]) = .ok (.str "e1") ∧
    bendM (.switch (.getItem (.str "service")) [("twitter", .getItem (.str "handle"))]
        none)
      (.dict [("service", .str "facebook"), ("email", .str "e1")]) =
      .error (.keyError (.str "facebook")) ∧
    bendM (.switch (.getItem (.str "service")) [("twitter", .getItem (.str "handle"))]
        none)
      (.dict [("service", .str "twitter"), ("handle", .str "h1")]) =
      bendM (.switch (.getItem (.str "service"))
        [("twitter", .getItem (.str "handle")), ("mastodon", .K .null)] none)
      (.dict [("service", .str "twitter"), ("handle", .str "h1")]) := by
  refine ⟨?_, ?_, ?_, ?_⟩
  · have h := switch_dispatch.1 (.getItem (.str "service"))
      [("twitter", .getItem (.str "handle"))] (some (.getItem (.str "email")))
      (.dict [("service", .str "twitter"), ("handle", .str "h1")])
      (.str "twitter") (.getItem (.str "handle")) rfl rfl
    rw [h]
    rfl
  · exact switch_dispatch.2.1 (.getItem (.str "service"))
      [("twitter", .getItem (.str "handle"))] (.getItem (.str "email"))
      (.dict [("service", .str "facebook"), ("email", .str "e1")])
      (.str "facebook") rfl rfl rfl
  · exact switch_dispatch.2.2.1 (.getItem (.str "service"))
      [("twitter", .getItem (.str "handle"))]
      (.dict [("service", .str "facebook"), ("email", .str "e1")])
      (.str "facebook") rfl rfl rfl
  · exact switch_dispatch.2.2.2 (.getItem (.str "service"))
      [("twitter", .getItem (.str "handle"))]
      [("twitter", .getItem (.str "handle")), ("mastodon", .K .null)] none
      (.dict [("service", .str "twitter"), ("handle", .str "h1")])
      (.str "twitter") rfl rfl

end JsonBender
